import Mathlib

/-!
Verification development for the sber-agents RAG pipeline.

The repository is a series of tutorial bots whose retrieval core lives in
three variants: 05-rag-langchain (semantic retrieval plus a lexical
exact-match shortcut), 07-advanced-rag (semantic / hybrid /
hybrid_reranker modes) and 09-mcp (the same retrieval stack behind an
agent tool).  The definitions below are a shallow embedding of the Python
sources `src/05-rag-langchain/src/rag.py`, `handlers.py`,
`indexer_with_json.py`, `src/07-advanced-rag/src/rag.py`, `handlers.py`,
`src/09-mcp/src/rag.py` and `tools.py`.  External collaborators (the LLM,
the embedding provider, the cross-encoder, the BM25 builder) are passed in
as function parameters.  Python floats are modelled by rationals.
-/

namespace SberRag

/-- LangChain `Document`: `page_content` plus the metadata keys that the
sources read (`source`, `page`, `question`, `answer`).  An absent metadata
key is `none`; the loaders never store falsy values. -/
structure Document where
  page_content : String
  source : Option String := none
  page : Option Int := none
  question : Option String := none
  answer : Option String := none
deriving DecidableEq, Repr

/-- A chat message as the handlers see it: only its `content` is read. -/
structure Msg where
  content : String
deriving DecidableEq, Repr

/-- Instrumentation marker: which retrieval component a code path consults. -/
inductive RagEvent where
  | exactLookup
  | denseQuery
  | sparseQuery
  | rerankStep
deriving DecidableEq, Repr

/-- Whitespace characters that Python `str.strip()` removes (the ASCII
ones: space, tab, newline, carriage return, vertical tab, form feed). -/
def pyWhitespace (c : Char) : Bool :=
  c == ' ' || c == '\t' || c == '\n' || c == '\r' || c.toNat == 11 || c.toNat == 12

/-- Python `str.strip()` with no arguments: drop whitespace from both
ends of the string, leaving interior whitespace untouched. -/
def pyStrip (s : String) : String :=
  String.mk (((s.data.dropWhile pyWhitespace).reverse.dropWhile pyWhitespace).reverse)

/-- Case folding of a single character as Python `str.lower()` performs
it on the ASCII range (the repository's normalization is exercised on
one alphabet at a time, and the embedding's witnesses use ASCII). -/
def pyCharLower (c : Char) : Char :=
  if 65 ≤ c.toNat ∧ c.toNat ≤ 90 then Char.ofNat (c.toNat + 32) else c

/-- Python `str.lower()`: case-fold every character. -/
def pyLower (s : String) : String :=
  String.mk (s.data.map pyCharLower)

/-- Python `text.strip().lower()` from `_normalize_question` in
`05-rag-langchain/src/rag.py` (and identically in `indexer_with_json.py`). -/
def normalizeQuestion (text : String) : String :=
  pyLower (pyStrip text)

/-- Python slice `l[:k]` for an `int` bound `k`: a negative bound counts
from the end, clamped at zero. -/
def pythonTake (k : Int) (l : List α) : List α :=
  if k < 0 then l.take (l.length - (-k).toNat) else l.take k.toNat

/-- Python `source.split('/')[-1] if '/' in source else source` from
`format_chunks`: the final path component (the whole string when no
slash occurs, matching the `if` branch). -/
def sourceName (source : String) : String :=
  (source.splitOn "/").getLastD source

/-- Rendering of the `page` metadata value inside the f-string of
`format_chunks`: the integer itself, or the `get` default `"N/A"`. -/
def pageStr : Option Int → String
  | some n => toString n
  | none => "N/A"

/-- One formatted part of `format_chunks`:
`f"[Источник {i}: {source_name}, стр. {page}]\n{chunk.page_content}"`. -/
def renderChunk (i : Nat) (chunk : Document) : String :=
  "[Источник " ++ toString i ++ ": " ++ sourceName (chunk.source.getD "Unknown")
    ++ ", стр. " ++ pageStr chunk.page ++ "]\n" ++ chunk.page_content

/-- The `for i, chunk in enumerate(chunks, 1)` loop body of
`format_chunks`, accumulating the formatted parts in order. -/
def formatParts : Nat → List Document → List String
  | _, [] => []
  | i, c :: cs => renderChunk i c :: formatParts (i + 1) cs

/-- `format_chunks` from `05-rag-langchain/src/rag.py` and (verbatim the
same code) `07-advanced-rag/src/rag.py`: the sentinel on empty input,
otherwise the parts joined by `"\n\n---\n\n"`. -/
def formatChunks (chunks : List Document) : String :=
  if chunks.isEmpty then "Нет доступной информации"
  else String.intercalate "\n\n---\n\n" (formatParts 1 chunks)

/-- Python `dict` assignment `d[k] = v`: overwrite the existing binding
for `k` or append a fresh one. -/
def dictInsert (k : String) (v : Document) :
    List (String × Document) → List (String × Document)
  | [] => [(k, v)]
  | (k', v') :: rest =>
      if k' = k then (k, v) :: rest else (k', v') :: dictInsert k v rest

/-- Python `d.get(k)`: the bound value or `None`.  Keys are unique by
construction, so the first match is the binding. -/
def dictGet (k : String) : List (String × Document) → Option Document
  | [] => none
  | (k', v) :: rest => if k' = k then some v else dictGet k rest

/-- The lexical-index construction loop of `reindex_all` in
`05-rag-langchain/src/indexer_with_json.py`: for each JSON chunk whose
metadata carries a (truthy) `question`, bind the normalized question to
the chunk. -/
def buildLexicalIndex (jsonChunks : List Document) : List (String × Document) :=
  jsonChunks.foldl
    (fun idx chunk =>
      match chunk.question with
      | none => idx
      | some q => if q = "" then idx else dictInsert (normalizeQuestion q) chunk idx)
    []

/-- Python `doc.metadata.get("answer") or doc.page_content` from the
lexical-shortcut branch of `rag_answer` in `05-rag-langchain/src/rag.py`:
a missing or empty (falsy) answer falls back to the page content. -/
def answerOrContent (doc : Document) : String :=
  match doc.answer with
  | some a => if a = "" then doc.page_content else a
  | none => doc.page_content

/-- A `vector_store.as_retriever(search_kwargs)` handle of the 05 variant:
query text to ranked documents (the embedding search is external). -/
def Retriever05 : Type := String → List Document

/-- Module-level globals of `05-rag-langchain/src/rag.py`:
`vector_store`, `retriever` and `lexical_index`. -/
structure State05 where
  vector_store : Option Retriever05
  retriever : Option Retriever05
  lexical_index : List (String × Document)

/-- The post-shortcut part of `rag_answer` in `05-rag-langchain/src/rag.py`:
the `NotReady` guard, then the LCEL chain (query transformation, dense
retrieval, answer synthesis).  Returns the outcome together with the
trace of index consultations. -/
def ragChain05 (queryTransform : List Msg → String)
    (llm : String → List Msg → String)
    (st : State05) (messages : List Msg) :
    Except String String × List RagEvent :=
  match st.vector_store, st.retriever with
  | some _, some retr =>
      let docs := retr (queryTransform messages)
      (Except.ok (llm (formatChunks docs) messages), [RagEvent.denseQuery])
  | _, _ =>
      (Except.error "Векторное хранилище не инициализировано. Запустите индексацию.", [])

/-- `rag_answer` from `05-rag-langchain/src/rag.py`: when a latest message
with non-empty stripped content exists and the lexical index is non-empty,
look the normalized query up first and answer from the stored chunk on a
hit; otherwise fall through to the `NotReady` guard and the RAG chain. -/
def ragAnswer05 (queryTransform : List Msg → String)
    (llm : String → List Msg → String)
    (st : State05) (messages : List Msg) :
    Except String String × List RagEvent :=
  let rest := ragChain05 queryTransform llm st messages
  match messages.getLast? with
  | none => rest
  | some latest =>
      let userQuery := pyStrip latest.content
      if userQuery = "" ∨ st.lexical_index = [] then rest
      else
        match dictGet (normalizeQuestion userQuery) st.lexical_index with
        | some doc => (Except.ok (answerOrContent doc), [RagEvent.exactLookup])
        | none => (rest.1, RagEvent.exactLookup :: rest.2)

/-- `handle_message` from `05-rag-langchain/src/handlers.py`, reduced to
its retrieval-relevant control flow: the upfront initialization check,
then the `rag_answer` call with the `ValueError` catch.  Every path ends
in a reply string, never an exception. -/
def handleMessage05 (queryTransform : List Msg → String)
    (llm : String → List Msg → String)
    (st : State05) (messages : List Msg) : String :=
  match st.vector_store, st.retriever with
  | some _, some _ =>
      match (ragAnswer05 queryTransform llm st messages).1 with
      | Except.ok response => response
      | Except.error _ =>
          "⚠️ Векторное хранилище не готово. Используйте /index для индексации документов."
  | _, _ =>
      "⚠️ Векторное хранилище не инициализировано. Пожалуйста, подождите или используйте /index для индексации."

/-- `initialize_retriever` from `05-rag-langchain/src/rag.py`: derive the
retriever from the vector store when one is present; report `False` and
leave the state alone otherwise. -/
def initializeRetriever05 (st : State05) : State05 × Bool :=
  match st.vector_store with
  | none => (st, false)
  | some vs => ({ st with retriever := some vs }, true)

/-- `cmd_index` from `05-rag-langchain/src/handlers.py`, parameterized by
the `(vector_store, lexical_index)` pair returned by `reindex_all`
(which returns `(None, dict-empty)` on failure or when no documents were
found).  The handler assigns both globals unconditionally and only then
branches on the new vector store. -/
def cmdIndex05 (result : Option Retriever05 × List (String × Document))
    (st : State05) : State05 × String :=
  let st1 : State05 :=
    { st with vector_store := result.1, lexical_index := result.2 }
  match st1.vector_store with
  | some _ =>
      let st2 := (initializeRetriever05 st1).1
      (st2, "✅ Переиндексация завершена!")
  | none => (st1, "⚠️ Не найдено документов для индексации")

/-- Native score that a ranked scored list assigns to a chunk: the score
of its first occurrence, `0` when the chunk is absent from the list. -/
def scoreIn (l : List (Document × ℚ)) (c : Document) : ℚ :=
  match l.find? (fun p => p.1 = c) with
  | some p => p.2
  | none => 0

/-- Rank of a chunk in a ranked document list: the index of its first
occurrence, or the length of the list when absent (ranking it last). -/
def posIn : List Document → Document → Nat
  | [], _ => 0
  | d :: ds, c => if d = c then 0 else posIn ds c + 1

/-- Tie-break key (a): `0` when the chunk appears in both input lists,
else `1`, so presence in both ranks above presence in only one. -/
def bothNat (dense sparse : List (Document × ℚ)) (c : Document) : Nat :=
  if (dense.any (fun p => p.1 = c)) ∧ (sparse.any (fun p => p.1 = c)) then 0 else 1

/-- Modelled from the spec: the combined score of the Rank Fusion Engine
(spec §4.3), `w_dense * dense_score + w_sparse * sparse_score`, a chunk
absent from one list contributing `0` for that term.  The fusion itself
runs inside LangChain's `EnsembleRetriever`, which is not under `src/`. -/
def combinedScore (wd ws : ℚ) (dense sparse : List (Document × ℚ)) (c : Document) : ℚ :=
  wd * scoreIn dense c + ws * scoreIn sparse c

/-- Modelled from the spec: the fusion ordering of spec §4.3 — descending
combined score, ties broken by presence in both lists, then original
dense rank, then original sparse rank.  `fuseLe a b` states that `a` may
be placed before `b`. -/
def fuseLe (wd ws : ℚ) (dense sparse : List (Document × ℚ)) (a b : Document) : Prop :=
  combinedScore wd ws dense sparse b < combinedScore wd ws dense sparse a ∨
    (combinedScore wd ws dense sparse a = combinedScore wd ws dense sparse b ∧
      (bothNat dense sparse a < bothNat dense sparse b ∨
        (bothNat dense sparse a = bothNat dense sparse b ∧
          (posIn (dense.map Prod.fst) a < posIn (dense.map Prod.fst) b ∨
            (posIn (dense.map Prod.fst) a = posIn (dense.map Prod.fst) b ∧
              posIn (sparse.map Prod.fst) a ≤ posIn (sparse.map Prod.fst) b)))))

instance (wd ws : ℚ) (dense sparse : List (Document × ℚ)) :
    DecidableRel (fuseLe wd ws dense sparse) := fun a b =>
  inferInstanceAs (Decidable
    (combinedScore wd ws dense sparse b < combinedScore wd ws dense sparse a ∨
      (combinedScore wd ws dense sparse a = combinedScore wd ws dense sparse b ∧
        (bothNat dense sparse a < bothNat dense sparse b ∨
          (bothNat dense sparse a = bothNat dense sparse b ∧
            (posIn (dense.map Prod.fst) a < posIn (dense.map Prod.fst) b ∨
              (posIn (dense.map Prod.fst) a = posIn (dense.map Prod.fst) b ∧
                posIn (sparse.map Prod.fst) a ≤ posIn (sparse.map Prod.fst) b)))))))

/-- Deduplication pass over the candidates, skipping chunks already seen. -/
def dedupSeen (seen : List Document) : List Document → List Document
  | [] => []
  | d :: ds => if d ∈ seen then dedupSeen seen ds else d :: dedupSeen (d :: seen) ds

/-- Deduplication keeping the first occurrence of each chunk, so that no
chunk appears twice among the fusion candidates. -/
def dedupKeepFirst (l : List Document) : List Document :=
  dedupSeen [] l

/-- Modelled from the spec: every chunk appearing in either input list
(spec §4.3), dense candidates first, no chunk twice. -/
def fuseCandidates (dense sparse : List (Document × ℚ)) : List Document :=
  dedupKeepFirst (dense.map Prod.fst ++ sparse.map Prod.fst)

/-- Modelled from the spec: the Rank Fusion Engine of spec §4.3, used by
the hybrid retriever that `create_hybrid_retriever` assembles from the
semantic and BM25 retrievers (its `EnsembleRetriever` internals are not
under `src/`).  Empty result when both weights are `0`; otherwise the
candidates sorted by descending combined score with the spec's
tie-breaks. -/
def fuseRanked (wd ws : ℚ) (dense sparse : List (Document × ℚ)) : List Document :=
  if wd = 0 ∧ ws = 0 then []
  else (fuseCandidates dense sparse).insertionSort (fuseLe wd ws dense sparse)

/-- Output of the semantic retriever built by `create_semantic_retriever`
on a query whose ranked scored dense results are `dense`: the documents
in dense order. -/
def semanticRetrieve (dense : List (Document × ℚ)) : List Document :=
  dense.map Prod.fst

/-- The `(query, doc.page_content)` scoring pass of `rerank_documents` in
`07-advanced-rag/src/rag.py`: `zip(documents, scores)` for an external
cross-encoder `scorer`. -/
def rerankPairs (scorer : String → String → ℚ) (query : String)
    (documents : List Document) : List (Document × ℚ) :=
  documents.map (fun doc => (doc, scorer query doc.page_content))

/-- Python `sorted(zip(documents, scores), key=lambda x: x[1], reverse=True)`
from `rerank_documents`: a stable descending sort on the score. -/
def rerankRanked (scorer : String → String → ℚ) (query : String)
    (documents : List Document) : List (Document × ℚ) :=
  (rerankPairs scorer query documents).insertionSort (fun a b => b.2 ≤ a.2)

/-- `rerank_documents` from `07-advanced-rag/src/rag.py` (verbatim the
same code in `09-mcp/src/rag.py`): default the bound to
`config.RERANKER_TOP_K`, return `[]` on no candidates, otherwise the
stable descending sort truncated to the bound. -/
def rerankDocuments (cfgRerankTopK : Int) (scorer : String → String → ℚ)
    (query : String) (documents : List Document) (topK : Option Int) :
    List (Document × ℚ) :=
  let k := topK.getD cfgRerankTopK
  if documents.isEmpty then []
  else pythonTake k (rerankRanked scorer query documents)

/-- The retrieval-relevant configuration fields of `Config` in
`07-advanced-rag/src/config.py` and `09-mcp/src/config.py`. -/
structure Config07 where
  RETRIEVAL_MODE : String
  SEMANTIC_RETRIEVER_K : Nat
  BM25_RETRIEVER_K : Nat
  ENSEMBLE_SEMANTIC_WEIGHT : ℚ
  ENSEMBLE_BM25_WEIGHT : ℚ
  RERANKER_TOP_K : Int

/-- A vector store of the 07/09 variants: query and `k` to the ranked
scored nearest chunks (embedding search is external). -/
def VectorStore07 : Type := String → Nat → List (Document × ℚ)

/-- A retriever as built by `create_retriever`: either the plain semantic
retriever or the ensemble of a scored dense search and a scored BM25
search with the two fusion weights. -/
inductive Retriever where
  | semantic (search : String → List Document)
  | hybrid (dense : String → List (Document × ℚ)) (sparse : String → List (Document × ℚ))
      (wd ws : ℚ)

/-- `retriever.invoke(query)` together with the trace of index
consultations: the semantic retriever consults only the dense index; the
ensemble consults dense then sparse and fuses the two ranked lists. -/
def invokeRetriever : Retriever → String → List Document × List RagEvent
  | Retriever.semantic search, q => (search q, [RagEvent.denseQuery])
  | Retriever.hybrid dense sparse wd ws, q =>
      (fuseRanked wd ws (dense q) (sparse q), [RagEvent.denseQuery, RagEvent.sparseQuery])

/-- Module-level globals of `07-advanced-rag/src/rag.py`: `vector_store`,
`retriever` and `chunks` (the cross-encoder handle is modelled as the
external `scorer` parameter). -/
structure State07 where
  vector_store : Option VectorStore07
  retriever : Option Retriever
  chunks : Option (List Document)

/-- `create_retriever` from `07-advanced-rag/src/rag.py` and
`09-mcp/src/rag.py`: dispatch on the lower-cased mode; `semantic` needs
the vector store, `hybrid` and `hybrid_reranker` additionally need
non-empty chunks for the BM25 retriever (`bm25From` stands for the
external `BM25Retriever.from_documents`); unknown modes raise. -/
def createRetriever (bm25From : List Document → String → Nat → List (Document × ℚ))
    (cfg : Config07) (st : State07) : Except String Retriever :=
  let mode := pyLower cfg.RETRIEVAL_MODE
  if mode = "semantic" then
    match st.vector_store with
    | none => Except.error "Vector store not initialized"
    | some vs =>
        Except.ok (Retriever.semantic (fun q => (vs q cfg.SEMANTIC_RETRIEVER_K).map Prod.fst))
  else if mode = "hybrid" ∨ mode = "hybrid_reranker" then
    match st.vector_store with
    | none => Except.error "Vector store not initialized"
    | some vs =>
        match st.chunks with
        | none => Except.error "Chunks not initialized for BM25"
        | some chunks =>
            if chunks.isEmpty then Except.error "Chunks not initialized for BM25"
            else
              Except.ok (Retriever.hybrid
                (fun q => vs q cfg.SEMANTIC_RETRIEVER_K)
                (fun q => bm25From chunks q cfg.BM25_RETRIEVER_K)
                cfg.ENSEMBLE_SEMANTIC_WEIGHT cfg.ENSEMBLE_BM25_WEIGHT)
  else Except.error "Unknown retrieval mode"

/-- `initialize_retriever` from `07-advanced-rag/src/rag.py` and
`09-mcp/src/rag.py`: refuse when the vector store is unset; otherwise
install the created retriever, or report `False` and leave the state
untouched when creation raised. -/
def initializeRetriever07 (bm25From : List Document → String → Nat → List (Document × ℚ))
    (cfg : Config07) (st : State07) : State07 × Bool :=
  match st.vector_store with
  | none => (st, false)
  | some _ =>
      match createRetriever bm25From cfg st with
      | Except.ok r => ({ st with retriever := some r }, true)
      | Except.error _ => (st, false)

/-- The `_run_indexing` body of `cmd_index` in
`07-advanced-rag/src/handlers.py`, parameterized by the
`(vector_store, chunks)` pair that `indexer.reindex_all` returns (a
`None` vector store on failure or when no documents were found).  The
globals are reassigned and the retriever rebuilt only when the new
vector store is present; otherwise the state is left untouched and a
warning is reported. -/
def runIndexing07 (bm25From : List Document → String → Nat → List (Document × ℚ))
    (cfg : Config07) (result : Option VectorStore07 × List Document)
    (st : State07) : State07 × String :=
  match result.1 with
  | some vs =>
      let st1 : State07 := { st with vector_store := some vs, chunks := some result.2 }
      let st2 := (initializeRetriever07 bm25From cfg st1).1
      (st2, "✅ Переиндексация завершена!")
  | none => (st, "⚠️ Не найдено документов для индексации")

/-- `rag_answer` plus `get_rag_chain` from `07-advanced-rag/src/rag.py`:
the `NotReady` guard on both globals, then query transformation,
retriever invocation and — in `hybrid_reranker` mode — the reranking step
on the ensemble documents, keyed by the literal latest message content.
Returns the answer with its supporting documents and the event trace. -/
def ragAnswer07 (queryTransform : List Msg → String)
    (llm : String → List Msg → String) (scorer : String → String → ℚ)
    (cfg : Config07) (st : State07) (messages : List Msg) :
    Except String (String × List Document) × List RagEvent :=
  match st.vector_store, st.retriever with
  | some _, some retr =>
      let mode := pyLower cfg.RETRIEVAL_MODE
      if mode = "hybrid_reranker" then
        let invoked := invokeRetriever retr (queryTransform messages)
        let rerankQuery := match messages.getLast? with
          | some m => m.content
          | none => ""
        let reranked :=
          rerankDocuments cfg.RERANKER_TOP_K scorer rerankQuery invoked.1
            (some cfg.RERANKER_TOP_K)
        let docs := reranked.map Prod.fst
        (Except.ok (llm (formatChunks docs) messages, docs),
          invoked.2 ++ [RagEvent.rerankStep])
      else
        let invoked := invokeRetriever retr (queryTransform messages)
        (Except.ok (llm (formatChunks invoked.1) messages, invoked.1), invoked.2)
  | _, _ =>
      (Except.error "Векторное хранилище не инициализировано. Запустите индексацию.", [])

/-- `retrieve_documents` from `09-mcp/src/rag.py`: raise when the
retriever is unset; in `hybrid_reranker` mode invoke the ensemble, stop
on an empty result, otherwise rerank with `config.RERANKER_TOP_K`; in
every other mode return the retriever's output directly. -/
def retrieveDocuments09 (scorer : String → String → ℚ) (cfg : Config07)
    (retr? : Option Retriever) (query : String) :
    Except String (List Document) × List RagEvent :=
  match retr? with
  | none => (Except.error "Retriever not initialized", [])
  | some retr =>
      let mode := pyLower cfg.RETRIEVAL_MODE
      if mode = "hybrid_reranker" then
        let invoked := invokeRetriever retr query
        if invoked.1.isEmpty then (Except.ok [], invoked.2)
        else
          let reranked :=
            rerankDocuments cfg.RERANKER_TOP_K scorer query invoked.1
              (some cfg.RERANKER_TOP_K)
          (Except.ok (reranked.map Prod.fst), invoked.2 ++ [RagEvent.rerankStep])
      else
        let invoked := invokeRetriever retr query
        (Except.ok invoked.1, invoked.2)

/-- Hexadecimal digit in the lowercase alphabet `json.dumps` emits. -/
def hexDigit (n : Nat) : Char :=
  if n < 10 then Char.ofNat (48 + n) else Char.ofNat (87 + n)

/-- Four-digit lowercase hexadecimal rendering used by the `\uXXXX`
escapes of `json.dumps`. -/
def hex4 (n : Nat) : String :=
  String.mk [hexDigit (n / 4096 % 16), hexDigit (n / 256 % 16),
    hexDigit (n / 16 % 16), hexDigit (n % 16)]

/-- Per-character string escaping of `json.dumps(..., ensure_ascii=False)`:
quote, backslash and control characters are escaped, everything else
(non-ASCII included) passes through. -/
def jsonEscapeChar (c : Char) : String :=
  if c = '"' then "\\\""
  else if c = '\\' then "\\\\"
  else if c = '\n' then "\\n"
  else if c = '\r' then "\\r"
  else if c = '\t' then "\\t"
  else if c.toNat = 8 then "\\b"
  else if c.toNat = 12 then "\\f"
  else if c.toNat < 32 then "\\u" ++ hex4 c.toNat
  else String.singleton c

/-- JSON string literal as `json.dumps(..., ensure_ascii=False)` renders it. -/
def jsonStr (s : String) : String :=
  "\"" ++ String.join (s.toList.map jsonEscapeChar) ++ "\""

/-- One element of the `sources` list built by `rag_search` in
`09-mcp/src/tools.py`: the `source` metadata (default `"Unknown"`), the
full `page_content`, and `page` only when that key is present, rendered
with the default `json.dumps` separators. -/
def sourceEntryJson (doc : Document) : String :=
  "\x7b\"source\": " ++ jsonStr (doc.source.getD "Unknown")
    ++ ", \"page_content\": " ++ jsonStr doc.page_content
    ++ (match doc.page with
        | some p => ", \"page\": " ++ toString p
        | none => "")
    ++ "\x7d"

/-- Rendering of the whole `sources` payload as `json.dumps` produces it. -/
def sourcesJson (docs : List Document) : String :=
  "\x7b\"sources\": [" ++ String.intercalate ", " (docs.map sourceEntryJson) ++ "]\x7d"

/-- `rag_search` from `09-mcp/src/tools.py`, parameterized by the outcome
of `rag.retrieve_documents(query)` (an exception or the document list):
any exception and the empty result both yield the empty `sources`
payload; otherwise one entry per document in retrieval order. -/
def ragSearch (retrievalOutcome : Except String (List Document)) : String :=
  match retrievalOutcome with
  | Except.error _ => sourcesJson []
  | Except.ok docs => if docs.isEmpty then sourcesJson [] else sourcesJson docs

/-! Concrete fixtures used by witnesses and counterexamples. -/

/-- Test chunk mirroring the spec's end-to-end corpus. -/
def cUsd : Document := { page_content := "USD rate info" }

/-- Test chunk mirroring the spec's end-to-end corpus. -/
def cRub : Document := { page_content := "RUB rate info" }

/-- Test chunk mirroring the spec's end-to-end corpus. -/
def cLoan : Document := { page_content := "loan terms" }

/-- Q&A chunk as `load_json_documents` produces it, with a canonical
question and a stored answer. -/
def qaChunk : Document :=
  { page_content := "full text", question := some "deposit rates?", answer := some "7.5%" }

/-- Constant stand-in for the external query-transformation LLM. -/
def qt0 : List Msg → String := fun _ => "tq"

/-- Constant stand-in for the external answering LLM. -/
def llm0 : String → List Msg → String := fun _ _ => "LLMANSWER"

/-- Constant stand-in for the external cross-encoder. -/
def scorer0 : String → String → ℚ := fun _ _ => 0

/-- Ready 05-variant state: a live snapshot and a one-entry lexical index. -/
def ready05 : State05 :=
  { vector_store := some (fun _ => [cUsd]), retriever := some (fun _ => [cUsd]),
    lexical_index := buildLexicalIndex [qaChunk] }

/-- Uninitialized 07-variant state. -/
def uninit07 : State07 := { vector_store := none, retriever := none, chunks := none }

/-- Configuration fixture in `semantic` mode. -/
def cfgSemantic : Config07 :=
  { RETRIEVAL_MODE := "semantic", SEMANTIC_RETRIEVER_K := 10, BM25_RETRIEVER_K := 10,
    ENSEMBLE_SEMANTIC_WEIGHT := 1/2, ENSEMBLE_BM25_WEIGHT := 1/2, RERANKER_TOP_K := 3 }

/-! Helper lemmas. -/

theorem formatParts_length : ∀ (k : Nat) (cs : List Document),
    (formatParts k cs).length = cs.length
  | _, [] => rfl
  | k, _ :: cs => by
      simp [formatParts, formatParts_length (k + 1) cs]

theorem formatParts_getElem? : ∀ (cs : List Document) (k i : Nat),
    (formatParts k cs)[i]? = (cs[i]?).map (fun c => renderChunk (k + i) c)
  | [], _, _ => by simp [formatParts]
  | c :: cs, k, 0 => by simp [formatParts]
  | c :: cs, k, i + 1 => by
      simp only [formatParts, List.getElem?_cons_succ]
      rw [formatParts_getElem? cs (k + 1) i]
      ring_nf

/-! Claim theorems. -/

/-- C8: the context assembler applied to an empty chunk sequence returns
the fixed non-empty sentinel string, never an empty string (and, being a
total function, never an exception). -/
theorem format_chunks_empty_sentinel :
    formatChunks [] = "Нет доступной информации" ∧ "Нет доступной информации" ≠ "" := by
  constructor
  · rfl
  · decide

/-- C9: on a non-empty chunk sequence the context assembler renders the
chunks in input order, the i-th (from 1) as a bracketed header with the
source filename and the page (or N/A), a newline, and the chunk text,
joined by the fixed separator. -/
theorem format_chunks_nonempty_layout (cs : List Document) (h : cs ≠ []) :
    ∃ parts : List String,
      formatChunks cs = String.intercalate "\n\n---\n\n" parts ∧
      parts.length = cs.length ∧
      ∀ i c, cs[i]? = some c →
        parts[i]? = some ("[Источник " ++ toString (i + 1) ++ ": "
          ++ sourceName (c.source.getD "Unknown") ++ ", стр. " ++ pageStr c.page
          ++ "]\n" ++ c.page_content) := by
  refine ⟨formatParts 1 cs, ?_, formatParts_length 1 cs, ?_⟩
  · rw [formatChunks, if_neg]
    simpa using h
  · intro i c hic
    rw [formatParts_getElem?, hic]
    simp [renderChunk, Nat.add_comm]

/-- Witness for C9 at a concrete two-chunk input. -/
theorem format_chunks_nonempty_layout_witness :
    ∃ parts : List String,
      formatChunks [cUsd, cRub] = String.intercalate "\n\n---\n\n" parts ∧
      parts.length = ([cUsd, cRub] : List Document).length ∧
      ∀ i c, ([cUsd, cRub] : List Document)[i]? = some c →
        parts[i]? = some ("[Источник " ++ toString (i + 1) ++ ": "
          ++ sourceName (c.source.getD "Unknown") ++ ", стр. " ++ pageStr c.page
          ++ "]\n" ++ c.page_content) :=
  format_chunks_nonempty_layout [cUsd, cRub] (by decide)

/-- C10: the agent tool never propagates an exception — every outcome of
the underlying retrieval is rendered as a JSON object with a `sources`
key; any exception yields exactly the empty payload, and a successful
retrieval yields one entry per document in retrieval order. -/
theorem rag_search_total_json :
    (∀ e, ragSearch (Except.error e) = "\x7b\"sources\": []\x7d") ∧
    (∀ docs : List Document, ragSearch (Except.ok docs)
        = "\x7b\"sources\": [" ++ String.intercalate ", " (docs.map sourceEntryJson) ++ "]\x7d") ∧
    (∀ docs : List Document, (docs.map sourceEntryJson).length = docs.length) := by
  refine ⟨fun e => rfl, fun docs => ?_, fun docs => List.length_map docs _⟩
  cases docs with
  | nil => rfl
  | cons d ds => rfl

theorem filter_orderedInsert_score (s : ℚ) (x : Document × ℚ) :
    ∀ l : List (Document × ℚ),
      (List.orderedInsert (fun a b => b.2 ≤ a.2) x l).filter (fun p => p.2 = s) =
        if x.2 = s then x :: l.filter (fun p => p.2 = s)
        else l.filter (fun p => p.2 = s)
  | [] => by
      by_cases hx : x.2 = s <;> simp [List.orderedInsert, hx]
  | y :: l => by
      rw [List.orderedInsert]
      by_cases hxy : y.2 ≤ x.2
      · rw [if_pos hxy]
        by_cases hx : x.2 = s <;> by_cases hy : y.2 = s <;>
          simp [List.filter_cons, hx, hy]
      · rw [if_neg hxy, List.filter_cons,
          filter_orderedInsert_score s x l, List.filter_cons]
        by_cases hx : x.2 = s
        · have hy : y.2 ≠ s := fun hy => hxy (le_of_eq (hy.trans hx.symm))
          simp [hx, hy]
        · by_cases hy : y.2 = s <;> simp [hx, hy]

theorem filter_insertionSort_score (s : ℚ) :
    ∀ l : List (Document × ℚ),
      (l.insertionSort (fun a b => b.2 ≤ a.2)).filter (fun p => p.2 = s) =
        l.filter (fun p => p.2 = s)
  | [] => rfl
  | x :: l => by
      rw [List.insertionSort, filter_orderedInsert_score s x,
        filter_insertionSort_score s l]
      by_cases hx : x.2 = s <;> simp [hx]

/-- C5: the reranker's output has size at most the (non-negative)
truncation bound, and every returned document is drawn from the input
candidate list — no fabricated chunks. -/
theorem rerank_size_and_subset (cfgRerankTopK : Int) (scorer : String → String → ℚ)
    (query : String) (documents : List Document) (topK : Option Int)
    (hk : 0 ≤ topK.getD cfgRerankTopK) :
    ((rerankDocuments cfgRerankTopK scorer query documents topK).length : Int)
        ≤ topK.getD cfgRerankTopK ∧
    ∀ p ∈ rerankDocuments cfgRerankTopK scorer query documents topK,
      p.1 ∈ documents := by
  constructor
  · rw [rerankDocuments]
    split
    · simpa using hk
    · rw [pythonTake, if_neg (by omega)]
      calc ((List.take (topK.getD cfgRerankTopK).toNat
              (rerankRanked scorer query documents)).length : Int)
          ≤ ((topK.getD cfgRerankTopK).toNat : Int) := by
            exact_mod_cast List.length_take_le _ _
        _ = topK.getD cfgRerankTopK := Int.toNat_of_nonneg hk
  · intro p hp
    rw [rerankDocuments] at hp
    split at hp
    · simp at hp
    · have hmem : p ∈ rerankRanked scorer query documents := by
        rw [pythonTake] at hp
        split at hp <;> exact List.take_subset _ _ hp
      rw [rerankRanked, List.mem_insertionSort, rerankPairs] at hmem
      obtain ⟨d, hd, hdp⟩ := List.mem_map.mp hmem
      rw [← hdp]
      exact hd

/-- Witness for C5 at a concrete three-candidate input with bound 2. -/
theorem rerank_size_and_subset_witness :
    ((rerankDocuments 3 scorer0 "q" [cLoan, cUsd, cRub] (some 2)).length : Int) ≤ 2 ∧
    ∀ p ∈ rerankDocuments 3 scorer0 "q" [cLoan, cUsd, cRub] (some 2),
      p.1 ∈ [cLoan, cUsd, cRub] :=
  rerank_size_and_subset 3 scorer0 "q" [cLoan, cUsd, cRub] (some 2) (by decide)

/-- C6: the reranker is deterministic — identical inputs give identical
output — and it is a stable descending sort followed by truncation:
within each score class the ranked list keeps the candidates exactly in
their original fused-rank (input) order. -/
theorem rerank_deterministic_stable (cfgRerankTopK : Int)
    (scorer : String → String → ℚ) (query : String) (documents : List Document)
    (topK : Option Int) (documents2 : List Document) (h : documents2 = documents) :
    rerankDocuments cfgRerankTopK scorer query documents2 topK
        = rerankDocuments cfgRerankTopK scorer query documents topK ∧
    (∀ s : ℚ, (rerankRanked scorer query documents).filter (fun p => p.2 = s)
        = (rerankPairs scorer query documents).filter (fun p => p.2 = s)) ∧
    rerankDocuments cfgRerankTopK scorer query documents topK
        = pythonTake (topK.getD cfgRerankTopK) (rerankRanked scorer query documents) := by
  subst h
  refine ⟨rfl, fun s => filter_insertionSort_score s _, ?_⟩
  rw [rerankDocuments]
  split
  · rename_i hempty
    rw [List.isEmpty_iff] at hempty
    simp [rerankRanked, rerankPairs, hempty, pythonTake]
  · rfl

/-- Witness for C6: the stable-sort characterization applied at a
concrete input (two equal-scored candidates keep their input order). -/
theorem rerank_deterministic_stable_witness :
    rerankDocuments 3 scorer0 "q" [cLoan, cUsd] (some 2)
        = pythonTake 2 (rerankRanked scorer0 "q" [cLoan, cUsd]) :=
  (rerank_deterministic_stable 3 scorer0 "q" [cLoan, cUsd] (some 2)
    [cLoan, cUsd] rfl).2.2

theorem scoreIn_eq_of_nodup : ∀ (dense : List (Document × ℚ)) (p : Document × ℚ),
    (dense.map Prod.fst).Nodup → p ∈ dense → scoreIn dense p.1 = p.2
  | [], p, _, hp => by simp at hp
  | d :: ds, p, hnodup, hp => by
      rcases List.mem_cons.mp hp with hpd | hpds
      · subst hpd
        rw [scoreIn, List.find?_cons_of_pos _ (by simp)]
      · have hd1 : d.1 ∉ ds.map Prod.fst := by
          rw [List.map_cons, List.nodup_cons] at hnodup
          exact hnodup.1
        have hne : ¬ (d.1 = p.1) := fun he => hd1 (by
          rw [he]
          exact List.mem_map_of_mem Prod.fst hpds)
        have hfind : List.find? (fun e => e.1 = p.1) (d :: ds)
            = List.find? (fun e => e.1 = p.1) ds :=
          List.find?_cons_of_neg _ (by simpa using hne)
        rw [scoreIn, hfind]
        exact scoreIn_eq_of_nodup ds p
          (by rw [List.map_cons, List.nodup_cons] at hnodup; exact hnodup.2) hpds

theorem dedupSeen_eq_nil : ∀ (seen B : List Document),
    (∀ b ∈ B, b ∈ seen) → dedupSeen seen B = []
  | _, [], _ => rfl
  | seen, b :: B, h => by
      rw [dedupSeen, if_pos (h b (List.mem_cons_self b B))]
      exact dedupSeen_eq_nil seen B (fun x hx => h x (List.mem_cons_of_mem b hx))

theorem dedupSeen_append : ∀ (A seen B : List Document),
    A.Nodup → (∀ x ∈ A, x ∉ seen) → (∀ b ∈ B, b ∈ seen ∨ b ∈ A) →
    dedupSeen seen (A ++ B) = A
  | [], seen, B, _, _, hB =>
      dedupSeen_eq_nil seen B (fun b hb => (hB b hb).resolve_right (by simp))
  | a :: A, seen, B, hnodup, hseen, hB => by
      rw [List.cons_append, dedupSeen, if_neg (hseen a (List.mem_cons_self a A))]
      congr 1
      apply dedupSeen_append A (a :: seen) B (List.nodup_cons.mp hnodup).2
      · intro x hx hmem
        rcases List.mem_cons.mp hmem with h | h
        · exact (List.nodup_cons.mp hnodup).1 (h ▸ hx)
        · exact hseen x (List.mem_cons_of_mem a hx) h
      · intro b hb
        rcases hB b hb with h | h
        · exact Or.inl (List.mem_cons_of_mem a h)
        · rcases List.mem_cons.mp h with h' | h'
          · exact Or.inl (h' ▸ List.mem_cons_self a seen)
          · exact Or.inr h'

theorem dedupKeepFirst_append_of_subset (A B : List Document)
    (hnodup : A.Nodup) (hB : ∀ b ∈ B, b ∈ A) :
    dedupKeepFirst (A ++ B) = A :=
  dedupSeen_append A [] B hnodup (by simp) (fun b hb => Or.inr (hB b hb))

/-- C3 (amended): with a zero sparse weight, a positive dense weight,
strictly descending dense scores (the Dense Index contract), distinct
dense chunks, and every sparse-retrieved chunk already among the dense
results, hybrid fusion returns exactly the semantic-mode document list.
Without the subset condition sparse-only chunks are appended at combined
score 0, so plain equality fails (see the counterexample). -/
theorem fusion_zero_sparse_weight (wd : ℚ) (dense sparse : List (Document × ℚ))
    (hwd : 0 < wd)
    (hsorted : dense.Pairwise (fun p q => q.2 < p.2))
    (hnodup : (dense.map Prod.fst).Nodup)
    (hsub : ∀ p ∈ sparse, p.1 ∈ dense.map Prod.fst) :
    fuseRanked wd 0 dense sparse = semanticRetrieve dense := by
  rw [fuseRanked, if_neg (by rintro ⟨h0, -⟩; exact hwd.ne' h0)]
  have hcand : fuseCandidates dense sparse = dense.map Prod.fst := by
    rw [fuseCandidates]
    apply dedupKeepFirst_append_of_subset _ _ hnodup
    intro b hb
    obtain ⟨p, hp, rfl⟩ := List.mem_map.mp hb
    exact hsub p hp
  rw [hcand, semanticRetrieve]
  apply List.Sorted.insertionSort_eq
  show (dense.map Prod.fst).Pairwise (fuseLe wd 0 dense sparse)
  rw [List.pairwise_map]
  apply List.Pairwise.imp_of_mem _ hsorted
  intro p q hpmem hqmem hlt
  left
  simp only [combinedScore, zero_mul, add_zero]
  rw [scoreIn_eq_of_nodup dense p hnodup hpmem,
    scoreIn_eq_of_nodup dense q hnodup hqmem]
  exact mul_lt_mul_of_pos_left hlt hwd

/-- Counterexample to C3 as stated: with `w_sparse = 0` the fused list
still appends a sparse-only chunk (at combined score 0) after the dense
results, so hybrid output differs from semantic output. -/
theorem fusion_zero_sparse_weight_counterexample :
    fuseRanked 1 0 [(cUsd, 1)] [(cLoan, 1)] ≠ semanticRetrieve [(cUsd, 1)] := by
  intro heq
  have hcand : fuseCandidates [(cUsd, 1)] [(cLoan, 1)] = [cUsd, cLoan] := by decide
  have hlen := congrArg List.length heq
  rw [fuseRanked, if_neg (by decide), hcand, List.length_insertionSort] at hlen
  simp [semanticRetrieve] at hlen

/-- Witness for the amended C3 on a concrete snapshot where the sparse
results are contained in the dense results. -/
theorem fusion_zero_sparse_weight_witness :
    fuseRanked 1 0 [(cUsd, 2), (cRub, 1)] [(cRub, 5)]
      = semanticRetrieve [(cUsd, 2), (cRub, 1)] :=
  fusion_zero_sparse_weight 1 [(cUsd, 2), (cRub, 1)] [(cRub, 5)]
    (by norm_num) (by decide) (by decide) (by decide)

/-- C1: the 07-advanced-rag background indexing handler leaves the whole
retrieval state unchanged when the rebuild fails or finds no documents,
as the claim demands; the 05-rag-langchain `cmd_index`, however,
unconditionally overwrites the globals first, so at the concrete failed
result `(None, dict-empty)` a previously live snapshot is destroyed: the
vector store becomes `None`, the lexical index becomes empty, and the
next query fails as if the system were uninitialized. -/
theorem reindex_failure_snapshot :
    (∀ (bm25From : List Document → String → Nat → List (Document × ℚ))
        (cfg : Config07) (chunks : List Document) (st : State07),
      (runIndexing07 bm25From cfg (none, chunks) st).1 = st) ∧
    ready05.vector_store.isSome = true ∧
    ready05.retriever.isSome = true ∧
    ready05.lexical_index ≠ [] ∧
    (cmdIndex05 (none, []) ready05).1.vector_store = none ∧
    (cmdIndex05 (none, []) ready05).1.lexical_index = [] ∧
    (ragAnswer05 qt0 llm0 (cmdIndex05 (none, []) ready05).1 [Msg.mk "any question"]).1
      = Except.error "Векторное хранилище не инициализировано. Запустите индексацию." := by
  refine ⟨fun bm25From cfg chunks st => rfl, rfl, rfl, by decide, rfl, rfl, rfl⟩

/-- C2 (amended): only the 05 variant implements the exact-match
shortcut; there, whenever the latest query text is non-empty after
stripping and the exact-match table is non-empty, the lookup is the
first retrieval action, before any index is consulted.  The 07 and 09
retrieval entry points — the ones that implement the three configured
modes — never perform an exact-match lookup at all. -/
theorem exact_match_precedes_indices :
    (∀ (qt : List Msg → String) (llm : String → List Msg → String)
        (st : State05) (messages : List Msg) (m : Msg),
      messages.getLast? = some m → pyStrip m.content ≠ "" → st.lexical_index ≠ [] →
      ∃ rest, (ragAnswer05 qt llm st messages).2 = RagEvent.exactLookup :: rest) ∧
    (∀ (scorer : String → String → ℚ) (cfg : Config07)
        (retr? : Option Retriever) (q : String),
      RagEvent.exactLookup ∉ (retrieveDocuments09 scorer cfg retr? q).2) ∧
    (∀ (qt : List Msg → String) (llm : String → List Msg → String)
        (scorer : String → String → ℚ) (cfg : Config07) (st : State07)
        (messages : List Msg),
      RagEvent.exactLookup ∉ (ragAnswer07 qt llm scorer cfg st messages).2) := by
  refine ⟨?_, ?_, ?_⟩
  · intro qt llm st messages m hlast hne hlex
    simp only [ragAnswer05, hlast]
    rw [if_neg (by simp [hne, hlex])]
    cases hdg : dictGet (normalizeQuestion (pyStrip m.content)) st.lexical_index with
    | some doc => exact ⟨[], rfl⟩
    | none => exact ⟨(ragChain05 qt llm st messages).2, rfl⟩
  · intro scorer cfg retr? q
    cases retr? with
    | none => simp [retrieveDocuments09]
    | some retr =>
        rw [retrieveDocuments09]
        split
        · cases retr with
          | semantic f =>
              simp only [invokeRetriever]
              split <;> simp
          | hybrid d s wd ws =>
              simp only [invokeRetriever]
              split <;> simp
        · cases retr <;> simp [invokeRetriever]
  · intro qt llm scorer cfg st messages
    obtain ⟨vs, retr, chunks⟩ := st
    cases vs with
    | none => simp [ragAnswer07]
    | some v =>
        cases retr with
        | none => simp [ragAnswer07]
        | some r =>
            simp only [ragAnswer07]
            split
            · cases r <;> simp [invokeRetriever]
            · cases r <;> simp [invokeRetriever]

/-- Counterexample to C2 as stated: the 09 retrieval entry point in
`semantic` mode consults the dense index with no exact-match lookup ever
happening before it (its event trace is exactly one dense query). -/
theorem exact_match_precedes_indices_counterexample :
    (retrieveDocuments09 scorer0 cfgSemantic
        (some (Retriever.semantic (fun _ => [cUsd]))) "Какие проценты по вкладам?").2
      = [RagEvent.denseQuery] ∧
    RagEvent.exactLookup ∉ [RagEvent.denseQuery] := by
  constructor
  · decide
  · decide

/-- Witness for the amended C2 at a concrete 05 state with a non-empty
lexical index and a non-blank query. -/
theorem exact_match_precedes_indices_witness :
    ∃ rest, (ragAnswer05 qt0 llm0 ready05 [Msg.mk "  Deposit Rates?  "]).2
      = RagEvent.exactLookup :: rest :=
  exact_match_precedes_indices.1 qt0 llm0 ready05 [Msg.mk "  Deposit Rates?  "]
    (Msg.mk "  Deposit Rates?  ") rfl (by decide) (by decide)

/-- C4 (amended): a query whose stripped, case-folded form coincides with
that of a canonical question stored in the lexical index is answered
directly from the stored chunk's (non-empty) `answer` metadata, with the
exact-match lookup as the only retrieval action — no dense or sparse
index is consulted and no supporting chunks are produced.  Queries that
differ from the canonical question in internal whitespace do not
normalize to the same key and fall through to retrieval (see the
counterexample). -/
theorem exact_match_normalized_hit (qt : List Msg → String)
    (llm : String → List Msg → String) (st : State05) (messages : List Msg)
    (m : Msg) (q a : String) (doc : Document)
    (hlast : messages.getLast? = some m)
    (hne : pyStrip m.content ≠ "")
    (hnorm : normalizeQuestion (pyStrip m.content) = normalizeQuestion q)
    (hidx : dictGet (normalizeQuestion q) st.lexical_index = some doc)
    (hans : doc.answer = some a)
    (hane : a ≠ "") :
    ragAnswer05 qt llm st messages = (Except.ok a, [RagEvent.exactLookup]) := by
  have hlex : st.lexical_index ≠ [] := by
    intro h
    rw [h] at hidx
    simp [dictGet] at hidx
  obtain ⟨pc, src, pg, qst, ans⟩ := doc
  dsimp only at hans
  subst hans
  simp only [ragAnswer05, hlast]
  rw [if_neg (by simp [hne, hlex]), hnorm, hidx]
  show (Except.ok (if a = "" then pc else a), [RagEvent.exactLookup])
      = (Except.ok a, [RagEvent.exactLookup])
  rw [if_neg hane]

/-- Counterexample to C4 as stated: `"deposit  rates?"` differs from the
stored canonical question `"deposit rates?"` only in whitespace (one
extra internal space), yet the stored answer is not returned and the
dense index is consulted. -/
theorem exact_match_normalized_hit_counterexample :
    (ragAnswer05 qt0 llm0 ready05 [Msg.mk "deposit  rates?"]).1 = Except.ok "LLMANSWER" ∧
    "LLMANSWER" ≠ "7.5%" ∧
    RagEvent.denseQuery ∈ (ragAnswer05 qt0 llm0 ready05 [Msg.mk "deposit  rates?"]).2 := by
  refine ⟨rfl, by decide, by decide⟩

/-- Witness for the amended C4: a case- and edge-whitespace variant of
the canonical question returns the stored answer via the shortcut alone. -/
theorem exact_match_normalized_hit_witness :
    ragAnswer05 qt0 llm0 ready05 [Msg.mk "  Deposit Rates?  "]
      = (Except.ok "7.5%", [RagEvent.exactLookup]) :=
  exact_match_normalized_hit qt0 llm0 ready05 [Msg.mk "  Deposit Rates?  "]
    (Msg.mk "  Deposit Rates?  ") "deposit rates?" "7.5%" qaChunk
    rfl (by decide) (by decide) (by decide) rfl (by decide)

/-- C7: querying with no snapshot loaded fails with the `NotReady` error
instead of returning a result (09's `retrieve_documents` and 07's
`rag_answer`), and the callers degrade gracefully: the 05 chat handler
answers with a fixed warning when the globals are unset and turns a
`ValueError` from `rag_answer` into a fixed user message, and the agent
tool renders any retrieval exception as the empty `sources` payload. -/
theorem not_ready_graceful :
    (∀ (scorer : String → String → ℚ) (cfg : Config07) (q : String),
      (retrieveDocuments09 scorer cfg none q).1
        = Except.error "Retriever not initialized") ∧
    (∀ (qt : List Msg → String) (llm : String → List Msg → String)
        (scorer : String → String → ℚ) (cfg : Config07) (st : State07)
        (messages : List Msg),
      st.vector_store = none ∨ st.retriever = none →
      (ragAnswer07 qt llm scorer cfg st messages).1
        = Except.error "Векторное хранилище не инициализировано. Запустите индексацию.") ∧
    (∀ (qt : List Msg → String) (llm : String → List Msg → String)
        (st : State05) (messages : List Msg),
      st.vector_store = none ∨ st.retriever = none →
      handleMessage05 qt llm st messages
        = "⚠️ Векторное хранилище не инициализировано. Пожалуйста, подождите или используйте /index для индексации.") ∧
    (∀ (qt : List Msg → String) (llm : String → List Msg → String)
        (st : State05) (messages : List Msg) (e : String),
      (ragAnswer05 qt llm st messages).1 = Except.error e →
      handleMessage05 qt llm st messages
        = "⚠️ Векторное хранилище не инициализировано. Пожалуйста, подождите или используйте /index для индексации." ∨
      handleMessage05 qt llm st messages
        = "⚠️ Векторное хранилище не готово. Используйте /index для индексации документов.") ∧
    (∀ e, ragSearch (Except.error e) = "\x7b\"sources\": []\x7d") := by
  refine ⟨fun scorer cfg q => rfl, ?_, ?_, ?_, fun e => rfl⟩
  · intro qt llm scorer cfg st messages h
    obtain ⟨vs, retr, chunks⟩ := st
    rcases h with h | h
    · simp only at h
      subst h
      rfl
    · simp only at h
      subst h
      cases vs <;> rfl
  · intro qt llm st messages h
    obtain ⟨vs, retr, lex⟩ := st
    rcases h with h | h
    · simp only at h
      subst h
      rfl
    · simp only at h
      subst h
      cases vs <;> rfl
  · intro qt llm st messages e herr
    obtain ⟨vs, retr, lex⟩ := st
    cases vs with
    | none => exact Or.inl rfl
    | some v =>
        cases retr with
        | none => exact Or.inl rfl
        | some r =>
            right
            rw [handleMessage05]
            rw [herr]

/-- Witness for C7 at the concrete uninitialized 07 state (and the 05
handler at an unset vector store). -/
theorem not_ready_graceful_witness :
    (ragAnswer07 qt0 llm0 scorer0 cfgSemantic uninit07 [Msg.mk "q"]).1
      = Except.error "Векторное хранилище не инициализировано. Запустите индексацию." :=
  not_ready_graceful.2.1 qt0 llm0 scorer0 cfgSemantic uninit07 [Msg.mk "q"]
    (Or.inl rfl)

end SberRag
